import Mathlib

/-
Verification of the scoring-and-fallback kernel of the AIDA DAO-analysis
backend.  The definitions below are shallow embeddings of the Python
functions in `backend/services/ai_service.py`, `backend/services/dao_service.py`
and `backend/services/hathor_service.py`.  Python floats are modelled as
rationals; `random.uniform(a, b)` is modelled as `a + r * (b - a)` for a
seed `r ∈ [0,1]`, and `random.choice` over a two-element list as a `Bool`
parameter selecting the element.
-/

namespace AIDA

/-- One treasury holding: `{symbol, value_usd}` as consumed by the
treasury-analysis functions (`asset.get('symbol')`, `asset.get('value_usd', 0)`). -/
structure Asset where
  symbol : String
  value_usd : ℚ
deriving Repr, DecidableEq

/-- `sum(asset.get('value_usd', 0) for asset in assets)`. -/
def totalValue (assets : List Asset) : ℚ :=
  (assets.map (fun a => a.value_usd)).sum

/-- The `risk_scores` dictionary of `AIService._calculate_treasury_risk`,
with the `.get(symbol, 0.5)` default for unknown symbols. -/
def risk_scores (s : String) : ℚ :=
  if s = "USDC" then 1/10 else if s = "USDT" then 1/10 else if s = "DAI" then 1/10
  else if s = "ETH" then 6/10 else if s = "BTC" then 7/10
  else if s = "UNI" then 8/10 else if s = "AAVE" then 8/10 else if s = "COMP" then 8/10
  else 1/2

/-- The `liquidity_scores` dictionary of `AIService._calculate_liquidity_score`,
with the `.get(symbol, 0.5)` default for unknown symbols. -/
def liquidity_scores (s : String) : ℚ :=
  if s = "USDC" then 1 else if s = "USDT" then 1 else if s = "DAI" then 1
  else if s = "ETH" then 9/10 else if s = "BTC" then 9/10
  else if s = "UNI" then 7/10 else if s = "AAVE" then 6/10 else if s = "COMP" then 6/10
  else 1/2

/-- `AIService._calculate_treasury_risk`: value-weighted average of the
per-symbol risk table, `0.5` when the total value is zero, result
clamped by `min(1.0, ...)`. -/
def calculate_treasury_risk (assets : List Asset) : ℚ :=
  let total := totalValue assets
  if total = 0 then 1/2
  else min 1 ((assets.map (fun a => (a.value_usd / total) * risk_scores a.symbol)).sum)

/-- `AIService._calculate_liquidity_score`: value-weighted average of the
per-symbol liquidity table, `0.5` when the total value is zero, result
clamped by `min(1.0, ...)`. -/
def calculate_liquidity_score (assets : List Asset) : ℚ :=
  let total := totalValue assets
  if total = 0 then 1/2
  else min 1 ((assets.map (fun a => (a.value_usd / total) * liquidity_scores a.symbol)).sum)

/-- The Herfindahl-Hirschman index computed in `AIService.analyze_treasury_health`:
`sum((value_usd / total) ** 2 for asset in assets)`. -/
def hhi (assets : List Asset) : ℚ :=
  (assets.map (fun a => (a.value_usd / totalValue assets) ^ 2)).sum

/-- Result of `AIService.analyze_treasury_health`: either the error dictionary
`{"error": msg}` or the three scores of the success dictionary
(recommendations and top holdings are derived text, not modelled). -/
inductive TreasuryHealth where
  | error (msg : String)
  | ok (diversification_score risk_score liquidity_score : ℚ)
deriving Repr, DecidableEq

/-- `AIService.analyze_treasury_health`: returns the error marker when the
total value is zero, otherwise `1 - HHI`, the weighted risk score and the
weighted liquidity score. -/
def analyze_treasury_health (assets : List Asset) : TreasuryHealth :=
  if totalValue assets = 0 then .error "No treasury data available"
  else .ok (1 - hhi assets) (calculate_treasury_risk assets) (calculate_liquidity_score assets)

/-- The fields of the mocked `DAOService._get_dao_data` dictionary that the
three health-score functions consume. -/
structure DAOData where
  total_members : ℕ
  active_members : ℕ
  total_proposals : ℕ
  passed_proposals : ℕ
  avg_voter_participation : ℚ
  proposals_last_30_days : ℕ
  votes_last_30_days : ℕ
  treasury_assets : List Asset
deriving Repr, DecidableEq

/-- `min(1.0, max(0.0, x))`, the clamp used by every DAOService score. -/
def clamp01 (x : ℚ) : ℚ := min 1 (max 0 x)

/-- `DAOService._analyze_governance_health`:
`success_rate * 0.3 + participation * 0.4 + activity * 0.3`, clamped,
with `success_rate = passed / max(total, 1)` and
`activity = min(last_30_days / 10, 1.0)`. -/
def governance_health (d : DAOData) : ℚ :=
  let proposal_success_rate : ℚ := (d.passed_proposals : ℚ) / ((max d.total_proposals 1 : ℕ) : ℚ)
  let voter_participation := d.avg_voter_participation
  let activity_level : ℚ := min ((d.proposals_last_30_days : ℚ) / 10) 1
  clamp01 (proposal_success_rate * (3/10) + voter_participation * (4/10) + activity_level * (3/10))

/-- `DAOService._analyze_financial_health`: feeds the treasury assets through
`analyze_treasury_health`; on the error dictionary each `.get(..., 0.5)`
yields the neutral default.  Weights: diversification 0.4, inverted risk 0.4,
liquidity 0.2, clamped. -/
def financial_health (d : DAOData) : ℚ :=
  match analyze_treasury_health d.treasury_assets with
  | .error _ => clamp01 ((1/2) * (4/10) + (1 - 1/2) * (4/10) + (1/2) * (2/10))
  | .ok dv rs lq => clamp01 (dv * (4/10) + (1 - rs) * (4/10) + lq * (2/10))

/-- `DAOService._analyze_community_health`:
`active / max(total, 1) * 0.4 + min(votes_30d / 1000, 1.0) * 0.4 + 0.7 * 0.2`,
clamped (0.7 is the mocked community sentiment). -/
def community_health (d : DAOData) : ℚ :=
  let member_activity_rate : ℚ := (d.active_members : ℚ) / ((max d.total_members 1 : ℕ) : ℚ)
  let recent_engagement : ℚ := min ((d.votes_last_30_days : ℚ) / 1000) 1
  clamp01 (member_activity_rate * (4/10) + recent_engagement * (4/10) + (7/10) * (2/10))

/-- `DAOService.analyze_dao_health` overall score: unweighted mean of the
three component scores. -/
def overall_health (d : DAOData) : ℚ :=
  (governance_health d + financial_health d + community_health d) / 3

/-- ASCII lowering of a string, as Python `str.lower()` acts on the ASCII
proposal texts and keyword lists used by the fallback heuristics. -/
def lowerString (s : String) : String := String.mk (s.data.map Char.toLower)

/-- Substring containment on character lists (Python `needle in hay`). -/
def containsSub (hay needle : List Char) : Bool :=
  match hay with
  | [] => needle.isEmpty
  | _ :: rest => needle.isPrefixOf hay || containsSub rest needle

/-- Python `w in t` for strings. -/
def strContains (t w : String) : Bool := containsSub t.data w.data

/-- `positive_words` of `AIService._get_fallback_sentiment`. -/
def positive_words : List String :=
  ["improve", "enhance", "optimize", "increase", "benefit", "positive"]

/-- `negative_words` of `AIService._get_fallback_sentiment`. -/
def negative_words : List String :=
  ["reduce", "decrease", "risk", "danger", "negative", "problem"]

/-- `sum(1 for word in words if word in text_lower)`. -/
def keywordHits (words : List String) (text_lower : String) : ℕ :=
  (words.filter (fun w => strContains text_lower w)).length

/-- Positive-keyword hit count of `AIService._get_fallback_sentiment`. -/
def posCount (text : String) : ℕ := keywordHits positive_words (lowerString text)

/-- Negative-keyword hit count of `AIService._get_fallback_sentiment`. -/
def negCount (text : String) : ℕ := keywordHits negative_words (lowerString text)

/-- `random.uniform(a, b)` modelled with an explicit seed `r ∈ [0,1]`. -/
def uniform (a b r : ℚ) : ℚ := a + r * (b - a)

/-- `AIService._get_fallback_sentiment`: keyword counting selects the band,
then a uniform sample inside the band is returned. -/
def fallback_sentiment (text : String) (r : ℚ) : ℚ :=
  if posCount text > negCount text then uniform (3/10) (8/10) r
  else if negCount text > posCount text then uniform (-8/10) (-3/10) r
  else uniform (-2/10) (2/10) r

/-- `any(word in text_lower for word in words)`. -/
def containsAny (words : List String) (text_lower : String) : Bool :=
  words.any (fun w => strContains text_lower w)

/-- The financial/treasury keyword list of `AIService._get_fallback_risk_assessment`. -/
def financial_keywords : List String := ["fund", "money", "treasury", "allocation"]

/-- The security keyword list of `AIService._get_fallback_risk_assessment`. -/
def security_keywords : List String := ["security", "safety", "protection"]

/-- The structured result of `_get_fallback_risk_assessment`. -/
structure RiskAssessment where
  risk_level : String
  risk_factors : List String
  risk_score : ℚ
deriving Repr, DecidableEq

/-- The dictionary `{"low": 0.2, "medium": 0.5, "high": 0.8}` used to map the
chosen level to a score. -/
def risk_level_score (l : String) : ℚ :=
  if l = "low" then 2/10 else if l = "medium" then 5/10 else 8/10

/-- `random.choice([a, b])` modelled by a `Bool` selecting the element. -/
def choose (pick : Bool) (a b : String) : String := if pick then a else b

/-- `AIService._get_fallback_risk_assessment`: topic keywords select a pair of
candidate risk levels and a fixed factor list; the score is the image of the
chosen level under `risk_level_score`. -/
def fallback_risk_assessment (text : String) (pick : Bool) : RiskAssessment :=
  let text_lower := lowerString text
  if containsAny financial_keywords text_lower then
    let lvl := choose pick "medium" "high"
    ⟨lvl, ["Financial impact", "Treasury exposure", "Market volatility"], risk_level_score lvl⟩
  else if containsAny security_keywords text_lower then
    let lvl := choose pick "low" "medium"
    ⟨lvl, ["Implementation complexity", "Security considerations"], risk_level_score lvl⟩
  else
    let lvl := choose pick "low" "medium"
    ⟨lvl, ["Standard governance risk", "Community impact"], risk_level_score lvl⟩

/-- The `ActionType` enumeration of `models/schemas.py`. -/
inductive ActionType where
  | proposal_execution
  | treasury_rebalance
  | token_transfer
  | contract_interaction
deriving Repr, DecidableEq

/-- A value stored in the dynamically-typed `parameters` dictionary of an
action request: a string, a number, or a nested string-to-number mapping
(the shape `target_allocation` is expected to take). -/
inductive PValue where
  | str (s : String)
  | num (q : ℚ)
  | dict (d : List (String × ℚ))
deriving Repr, DecidableEq

/-- `ActionExecutionRequest` of `models/schemas.py` (gas_limit is unused by
the service and omitted). -/
structure ActionExecutionRequest where
  action_type : ActionType
  dao_address : String
  proposal_id : Option String
  parameters : List (String × PValue)
deriving Repr, DecidableEq

/-- `request.parameters.get(key)`: `none` models an absent key. -/
def lookupParam (ps : List (String × PValue)) (k : String) : Option PValue :=
  (ps.find? (fun p => p.1 = k)).map (fun p => p.2)

/-- Python falsiness of `parameters.get(key)` (`None`, `""`, `0` and `{}`
are falsy). -/
def isFalsy : Option PValue → Bool
  | none => true
  | some (.str s) => s = ""
  | some (.num q) => q = 0
  | some (.dict d) => d.isEmpty

/-- The result dictionary produced by the per-action executors of
`HathorService` (`execution_time` and `execution_data` are not modelled:
the former is a wall-clock timestamp, the latter is echoed mock data). -/
structure ExecResult where
  status : String
  transaction_hash : Option String
  gas_used : Option ℚ
  error_message : Option String
deriving Repr, DecidableEq

/-- The fields of `ActionExecutionResponse` that `execute_action` computes
(`action_id` is a fresh UUID and `created_at` a timestamp; both are
environment-dependent and not modelled). -/
structure ActionExecutionResponse where
  action_type : ActionType
  dao_address : String
  status : String
  transaction_hash : Option String
  gas_used : Option ℚ
  error_message : Option String
deriving Repr, DecidableEq

/-- `HathorService._validate_action_parameters`: raises `ValueError`
(modelled as `.error`) on a missing DAO address, a missing proposal id for
proposal execution, or a missing `target_allocation` key for treasury
rebalancing. -/
def validate_action_parameters (r : ActionExecutionRequest) : Except String Unit :=
  if r.dao_address = "" then .error "DAO address is required"
  else if r.action_type = .proposal_execution ∧ (r.proposal_id = none ∨ r.proposal_id = some "") then
    .error "Proposal ID is required for proposal execution"
  else if r.action_type = .treasury_rebalance ∧ lookupParam r.parameters "target_allocation" = none then
    .error "Target allocation is required for treasury rebalancing"
  else .ok ()

/-- `HathorService._execute_proposal`: the mocked execution always succeeds
with a mock transaction hash (`txh`, drawn from `mock_tx_hashes` by
`random.choice`) and gas 150000. -/
def execute_proposal (txh : String) : ExecResult :=
  ⟨"executed", some txh, some 150000, none⟩

/-- `request.parameters.get('target_allocation', {})` followed by
`.values()`: absent key defaults to the empty mapping; a non-mapping value
makes `.values()` raise `AttributeError` (modelled as `none`). -/
def getTargetAllocation (ps : List (String × PValue)) : Option (List (String × ℚ)) :=
  match lookupParam ps "target_allocation" with
  | none => some []
  | some (.dict d) => some d
  | some _ => none

/-- `HathorService._execute_treasury_rebalance`: fails when the allocation
percentages do not sum to 1 within 0.01 (the `ValueError` is caught by the
surrounding `except` and turned into a failed result); otherwise the mocked
execution succeeds with gas 200000.  The `AttributeError` raised by
`.values()` on a non-mapping is caught the same way (its Python message text
is abbreviated here). -/
def execute_treasury_rebalance (r : ActionExecutionRequest) (txh : String) : ExecResult :=
  match getTargetAllocation r.parameters with
  | none => ⟨"failed", none, none, some "target_allocation has no attribute values"⟩
  | some d =>
    let total_percentage := (d.map (fun p => p.2)).sum
    if |total_percentage - 1| > 1/100 then
      ⟨"failed", none, none, some "Target allocation percentages must sum to 100%"⟩
    else
      ⟨"executed", some txh, some 200000, none⟩

/-- `HathorService._execute_token_transfer`: checks the required parameter
keys in order and fails on the first missing one; otherwise the mocked
transfer succeeds with gas 65000. -/
def execute_token_transfer (r : ActionExecutionRequest) (txh : String) : ExecResult :=
  if lookupParam r.parameters "recipient" = none then
    ⟨"failed", none, none, some "Parameter 'recipient' is required for token transfer"⟩
  else if lookupParam r.parameters "amount" = none then
    ⟨"failed", none, none, some "Parameter 'amount' is required for token transfer"⟩
  else if lookupParam r.parameters "token_address" = none then
    ⟨"failed", none, none, some "Parameter 'token_address' is required for token transfer"⟩
  else
    ⟨"executed", some txh, some 65000, none⟩

/-- `HathorService._execute_contract_interaction`: fails when the contract
address or method is falsy; otherwise succeeds with
`parameters.get('estimated_gas', 100000)` as gas (only numeric values of
`estimated_gas` are modelled). -/
def execute_contract_interaction (r : ActionExecutionRequest) (txh : String) : ExecResult :=
  if isFalsy (lookupParam r.parameters "contract_address") ∨
      isFalsy (lookupParam r.parameters "method") then
    ⟨"failed", none, none, some "Contract address and method are required"⟩
  else
    let gas := match lookupParam r.parameters "estimated_gas" with
      | some (.num q) => q
      | _ => 100000
    ⟨"executed", some txh, some gas, none⟩

/-- `HathorService.execute_action`: validates, dispatches on the action type,
and wraps either the executor result or a caught validation error into an
`ActionExecutionResponse`.  The outer `except` also catches validation
errors, yielding a failed response with no transaction hash or gas. -/
def execute_action (r : ActionExecutionRequest) (txh : String) : ActionExecutionResponse :=
  match validate_action_parameters r with
  | .error msg => ⟨r.action_type, r.dao_address, "failed", none, none, some msg⟩
  | .ok _ =>
    let result := match r.action_type with
      | .proposal_execution => execute_proposal txh
      | .treasury_rebalance => execute_treasury_rebalance r txh
      | .token_transfer => execute_token_transfer r txh
      | .contract_interaction => execute_contract_interaction r txh
    ⟨r.action_type, r.dao_address, result.status, result.transaction_hash,
      result.gas_used, result.error_message⟩

/-- The treasury portfolio of the end-to-end scenario (also the mocked
`treasury_assets` of `DAOService._get_dao_data`). -/
def scenario_portfolio : List Asset :=
  [⟨"USDC", 1000000⟩, ⟨"ETH", 800000⟩, ⟨"UNI", 400000⟩, ⟨"AAVE", 300000⟩]

/-- The mocked DAO dataset of `DAOService._get_dao_data`. -/
def sampleDAO : DAOData :=
  ⟨1250, 850, 45, 32, 68/100, 8, 1250, scenario_portfolio⟩

/-- Uniform scaling of every holding (`doubling every value_usd` when c = 2). -/
def scaleAssets (c : ℚ) (assets : List Asset) : List Asset :=
  assets.map (fun a => ⟨a.symbol, c * a.value_usd⟩)

/-- The three-part safety contract of an execution result: the status is
one of "executed"/"failed", a failed result carries an error message, and
only an executed result carries a transaction hash. -/
def SafeResult (res : ExecResult) : Prop :=
  (res.status = "executed" ∨ res.status = "failed") ∧
  (res.status = "failed" → res.error_message.isSome) ∧
  (res.transaction_hash.isSome → res.status = "executed")

/-- C1 (counterexample): on the scenario portfolio the code computes
diversification 0.6976 (HHI = 0.16 + 0.1024 + 0.0256 + 0.0144 = 0.3024),
which differs from the claimed 0.7056; the claimed risk 0.456 and
liquidity 0.872 are reproduced. -/
theorem treasury_scenario_diversification_not_7056 :
    analyze_treasury_health scenario_portfolio =
      TreasuryHealth.ok (6976/10000) (456/1000) (872/1000) ∧
    (6976/10000 : ℚ) ≠ 7056/10000 := by
  constructor
  · simp [analyze_treasury_health, scenario_portfolio, totalValue, hhi,
          calculate_treasury_risk, calculate_liquidity_score, risk_scores, liquidity_scores]
    norm_num
  · norm_num

/-- C1 (amended): treasury analysis of the scenario portfolio computes
diversification = 1 − (0.4² + 0.32² + 0.16² + 0.12²) = 1 − 0.3024 = 0.6976,
risk = 0.456 and liquidity = 0.872. -/
theorem treasury_scenario_scores :
    analyze_treasury_health scenario_portfolio =
      TreasuryHealth.ok (1 - ((4/10)^2 + (32/100)^2 + (16/100)^2 + (12/100)^2))
        (456/1000) (872/1000) := by
  simp [analyze_treasury_health, scenario_portfolio, totalValue, hhi,
        calculate_treasury_risk, calculate_liquidity_score, risk_scores, liquidity_scores]
  norm_num

/-- C4: when the portfolio's total value is zero, the risk and liquidity
computations return the neutral default 0.5, while the treasury-analysis
path returns the explicit error marker. -/
theorem zero_total_neutral_defaults (assets : List Asset) (h : totalValue assets = 0) :
    calculate_treasury_risk assets = 1/2 ∧ calculate_liquidity_score assets = 1/2 ∧
    analyze_treasury_health assets = .error "No treasury data available" := by
  unfold calculate_treasury_risk calculate_liquidity_score analyze_treasury_health
  simp [h]

/-- C4 witness: the empty portfolio. -/
theorem zero_total_neutral_defaults_witness :
    calculate_treasury_risk [] = 1/2 ∧ calculate_liquidity_score [] = 1/2 ∧
    analyze_treasury_health [] = .error "No treasury data available" :=
  zero_total_neutral_defaults [] rfl

/-- C5: the governance health score equals
0.3 × (passed / max(total, 1)) + 0.4 × participation
+ 0.3 × min(last30 / 10, 1), clamped to [0,1]. -/
theorem governance_health_formula (d : DAOData) :
    governance_health d =
      min 1 (max 0 ((3/10) * ((d.passed_proposals : ℚ) / ((max d.total_proposals 1 : ℕ) : ℚ))
        + (4/10) * d.avg_voter_participation
        + (3/10) * min ((d.proposals_last_30_days : ℚ) / 10) 1)) := by
  unfold governance_health clamp01
  ring_nf

/-- C3 (counterexample): a single-asset portfolio has HHI = 1, so its
diversification score is 0, not 1 as claimed. -/
theorem diversification_single_asset_counterexample :
    analyze_treasury_health [⟨"USDC", 100⟩] = TreasuryHealth.ok 0 (1/10) 1 ∧ (0 : ℚ) ≠ 1 := by
  constructor
  · simp [analyze_treasury_health, totalValue, hhi, calculate_treasury_risk,
          calculate_liquidity_score, risk_scores, liquidity_scores]
    norm_num
  · norm_num

/-- C3 (amended): the diversification score equals 0 for a one-asset
portfolio, equals 1 − 1/N for holdings spread evenly across N assets
(approaching 1 as N grows), and for 4 equal holdings equals
1 − 4×(0.25)² = 0.75. -/
theorem diversification_hhi_shape :
    (∀ a : Asset, 0 < a.value_usd → 1 - hhi [a] = 0) ∧
    (∀ (s : String) (v : ℚ) (n : ℕ), 0 < v → 0 < n →
      1 - hhi (List.replicate n ⟨s, v⟩) = 1 - 1/n) ∧
    (1 - hhi (List.replicate 4 ⟨"TOKEN", 25⟩) = 1 - 4 * (1/4)^2) := by
  refine ⟨?_, ?_, ?_⟩
  · intro a ha
    simp [hhi, totalValue, div_self ha.ne']
  · intro s v n hv hn
    have hnq : (n : ℚ) ≠ 0 := Nat.cast_ne_zero.mpr hn.ne'
    simp only [hhi, totalValue, List.map_replicate, List.sum_replicate, nsmul_eq_mul]
    field_simp
    ring
  · norm_num [hhi, totalValue, List.replicate]

/-- C3 witness: a concrete one-asset portfolio and three equal holdings. -/
theorem diversification_hhi_shape_witness :
    1 - hhi [Asset.mk "USDC" 100] = 0 ∧
    1 - hhi (List.replicate 3 (Asset.mk "ETH" 50)) = 1 - 1/3 :=
  ⟨diversification_hhi_shape.1 ⟨"USDC", 100⟩ (by norm_num),
   diversification_hhi_shape.2.1 "ETH" 50 3 (by norm_num) (by norm_num)⟩

/-- C6: the fallback sentiment lies in [0.3, 0.8] when positive keyword hits
strictly dominate, in [-0.8, -0.3] when negative hits strictly dominate, and
in [-0.2, 0.2] otherwise (equal counts, in particular zero matches in
either list). -/
theorem fallback_sentiment_bands (text : String) (r : ℚ) (h0 : 0 ≤ r) (h1 : r ≤ 1) :
    (posCount text > negCount text →
      3/10 ≤ fallback_sentiment text r ∧ fallback_sentiment text r ≤ 8/10) ∧
    (negCount text > posCount text →
      -(8/10) ≤ fallback_sentiment text r ∧ fallback_sentiment text r ≤ -(3/10)) ∧
    (posCount text = negCount text →
      -(2/10) ≤ fallback_sentiment text r ∧ fallback_sentiment text r ≤ 2/10) := by
  unfold fallback_sentiment uniform
  refine ⟨fun h => ?_, fun h => ?_, fun h => ?_⟩
  · rw [if_pos h]
    constructor <;> nlinarith
  · rw [if_neg (by omega), if_pos h]
    constructor <;> nlinarith
  · rw [if_neg (by omega), if_neg (by omega)]
    constructor <;> nlinarith

/-- C6 witness: the empty text has zero keyword matches in either list, so
the sampled fallback sentiment lies in [-0.2, 0.2]. -/
theorem fallback_sentiment_bands_witness :
    -(2/10 : ℚ) ≤ fallback_sentiment "" 0 ∧ fallback_sentiment "" 0 ≤ 2/10 :=
  (fallback_sentiment_bands "" 0 le_rfl (by norm_num)).2.2 (by decide)

/-- C7: the fallback risk assessment picks its band by keyword topic
(financial keywords allow only medium/high, all other texts only
low/medium), returns the fixed factor list of the topic, and its
risk_score is exactly the image of the band under
low=0.2, medium=0.5, high=0.8. -/
theorem fallback_risk_consistent (text : String) (pick : Bool) :
    (fallback_risk_assessment text pick).risk_score
        = risk_level_score (fallback_risk_assessment text pick).risk_level ∧
    (if containsAny financial_keywords (lowerString text) then
        ((fallback_risk_assessment text pick).risk_level = "medium" ∨
         (fallback_risk_assessment text pick).risk_level = "high") ∧
        (fallback_risk_assessment text pick).risk_factors =
          ["Financial impact", "Treasury exposure", "Market volatility"]
     else
        ((fallback_risk_assessment text pick).risk_level = "low" ∨
         (fallback_risk_assessment text pick).risk_level = "medium") ∧
        (fallback_risk_assessment text pick).risk_factors =
          (if containsAny security_keywords (lowerString text) then
            ["Implementation complexity", "Security considerations"]
          else ["Standard governance risk", "Community impact"])) := by
  unfold fallback_risk_assessment choose
  cases pick <;> split_ifs <;> simp_all

theorem clamp01_mem (x : ℚ) : 0 ≤ clamp01 x ∧ clamp01 x ≤ 1 :=
  ⟨le_min (by norm_num) (le_max_left 0 x), min_le_left 1 _⟩

theorem risk_scores_mem (s : String) : 0 ≤ risk_scores s ∧ risk_scores s ≤ 1 := by
  unfold risk_scores
  split_ifs <;> norm_num

theorem liquidity_scores_mem (s : String) : 0 ≤ liquidity_scores s ∧ liquidity_scores s ≤ 1 := by
  unfold liquidity_scores
  split_ifs <;> norm_num

theorem totalValue_nonneg (assets : List Asset) (hv : ∀ a ∈ assets, 0 ≤ a.value_usd) :
    0 ≤ totalValue assets := by
  apply List.sum_nonneg
  intro x hx
  obtain ⟨a, ha, rfl⟩ := List.mem_map.mp hx
  exact hv a ha

theorem list_sum_map_div (l : List ℚ) (c : ℚ) :
    (l.map (fun x => x / c)).sum = l.sum / c := by
  induction l with
  | nil => simp
  | cons x xs ih => simp [ih, add_div]

theorem list_sum_sq_le_sum (l : List ℚ) (h : ∀ x ∈ l, 0 ≤ x ∧ x ≤ 1) :
    (l.map (fun x => x ^ 2)).sum ≤ l.sum := by
  induction l with
  | nil => simp
  | cons x xs ih =>
    simp only [List.map_cons, List.sum_cons]
    have hx := h x (by simp)
    have h2 : x ^ 2 ≤ x := by nlinarith [hx.1, hx.2]
    have h3 := ih (fun y hy => h y (by simp [hy]))
    linarith

theorem hhi_nonneg (assets : List Asset) : 0 ≤ hhi assets := by
  apply List.sum_nonneg
  intro x hx
  obtain ⟨a, _, rfl⟩ := List.mem_map.mp hx
  positivity

theorem hhi_le_one (assets : List Asset) (hv : ∀ a ∈ assets, 0 ≤ a.value_usd)
    (ht : 0 < totalValue assets) : hhi assets ≤ 1 := by
  have hre : hhi assets =
      ((assets.map (fun a => a.value_usd / totalValue assets)).map (fun x => x ^ 2)).sum := by
    rw [List.map_map]
    rfl
  have hws : (assets.map (fun a => a.value_usd / totalValue assets)) =
      (assets.map (fun a => a.value_usd)).map (fun x => x / totalValue assets) := by
    rw [List.map_map]
    rfl
  have hnn : ∀ w ∈ assets.map (fun a => a.value_usd / totalValue assets), 0 ≤ w := by
    intro w hw
    obtain ⟨a, ha, rfl⟩ := List.mem_map.mp hw
    exact div_nonneg (hv a ha) ht.le
  have hsum : (assets.map (fun a => a.value_usd / totalValue assets)).sum = 1 := by
    rw [hws, list_sum_map_div]
    exact div_self ht.ne'
  have hle : ∀ w ∈ assets.map (fun a => a.value_usd / totalValue assets), w ≤ 1 := by
    intro w hw
    have := List.single_le_sum hnn w hw
    rwa [hsum] at this
  calc hhi assets = ((assets.map (fun a => a.value_usd / totalValue assets)).map
        (fun x => x ^ 2)).sum := hre
    _ ≤ (assets.map (fun a => a.value_usd / totalValue assets)).sum :=
        list_sum_sq_le_sum _ (fun w hw => ⟨hnn w hw, hle w hw⟩)
    _ = 1 := hsum

theorem weighted_table_sum_nonneg (table : String → ℚ) (hT : ∀ s, 0 ≤ table s)
    (assets : List Asset) (hv : ∀ a ∈ assets, 0 ≤ a.value_usd) (ht : 0 ≤ totalValue assets) :
    0 ≤ (assets.map (fun a => (a.value_usd / totalValue assets) * table a.symbol)).sum := by
  apply List.sum_nonneg
  intro x hx
  obtain ⟨a, ha, rfl⟩ := List.mem_map.mp hx
  exact mul_nonneg (div_nonneg (hv a ha) ht) (hT a.symbol)

theorem calculate_treasury_risk_mem (assets : List Asset)
    (hv : ∀ a ∈ assets, 0 ≤ a.value_usd) :
    0 ≤ calculate_treasury_risk assets ∧ calculate_treasury_risk assets ≤ 1 := by
  simp only [calculate_treasury_risk]
  split_ifs with h
  · norm_num
  · exact ⟨le_min (by norm_num)
      (weighted_table_sum_nonneg risk_scores (fun s => (risk_scores_mem s).1) assets hv
        (totalValue_nonneg assets hv)), min_le_left _ _⟩

theorem calculate_liquidity_score_mem (assets : List Asset)
    (hv : ∀ a ∈ assets, 0 ≤ a.value_usd) :
    0 ≤ calculate_liquidity_score assets ∧ calculate_liquidity_score assets ≤ 1 := by
  simp only [calculate_liquidity_score]
  split_ifs with h
  · norm_num
  · exact ⟨le_min (by norm_num)
      (weighted_table_sum_nonneg liquidity_scores (fun s => (liquidity_scores_mem s).1) assets hv
        (totalValue_nonneg assets hv)), min_le_left _ _⟩

/-- C2: on the documented domain (participation in [0,1], counts arbitrary
naturals, asset values nonnegative, positive portfolio total), the
governance, financial, community, overall, diversification, treasury-risk
and liquidity scores all lie in [0,1]. -/
theorem score_bundle_bounds (d : DAOData)
    (_hp0 : 0 ≤ d.avg_voter_participation) (_hp1 : d.avg_voter_participation ≤ 1)
    (hv : ∀ a ∈ d.treasury_assets, 0 ≤ a.value_usd)
    (ht : 0 < totalValue d.treasury_assets) :
    (0 ≤ governance_health d ∧ governance_health d ≤ 1) ∧
    (0 ≤ financial_health d ∧ financial_health d ≤ 1) ∧
    (0 ≤ community_health d ∧ community_health d ≤ 1) ∧
    (0 ≤ overall_health d ∧ overall_health d ≤ 1) ∧
    (0 ≤ 1 - hhi d.treasury_assets ∧ 1 - hhi d.treasury_assets ≤ 1) ∧
    (0 ≤ calculate_treasury_risk d.treasury_assets ∧
      calculate_treasury_risk d.treasury_assets ≤ 1) ∧
    (0 ≤ calculate_liquidity_score d.treasury_assets ∧
      calculate_liquidity_score d.treasury_assets ≤ 1) := by
  have hg : 0 ≤ governance_health d ∧ governance_health d ≤ 1 := by
    unfold governance_health
    exact clamp01_mem _
  have hf : 0 ≤ financial_health d ∧ financial_health d ≤ 1 := by
    cases hta : analyze_treasury_health d.treasury_assets with
    | error msg => simp only [financial_health, hta]; exact clamp01_mem _
    | ok dv rs lq => simp only [financial_health, hta]; exact clamp01_mem _
  have hc : 0 ≤ community_health d ∧ community_health d ≤ 1 := by
    unfold community_health
    exact clamp01_mem _
  have ho : 0 ≤ overall_health d ∧ overall_health d ≤ 1 := by
    unfold overall_health
    constructor <;> [linarith [hg.1, hf.1, hc.1]; linarith [hg.2, hf.2, hc.2]]
  refine ⟨hg, hf, hc, ho, ⟨?_, ?_⟩, calculate_treasury_risk_mem _ hv,
    calculate_liquidity_score_mem _ hv⟩
  · linarith [hhi_le_one d.treasury_assets hv ht]
  · linarith [hhi_nonneg d.treasury_assets]

/-- C2 witness: the mocked sample DAO of the repository. -/
theorem score_bundle_bounds_witness :
    (0 ≤ governance_health sampleDAO ∧ governance_health sampleDAO ≤ 1) ∧
    (0 ≤ financial_health sampleDAO ∧ financial_health sampleDAO ≤ 1) ∧
    (0 ≤ community_health sampleDAO ∧ community_health sampleDAO ≤ 1) ∧
    (0 ≤ overall_health sampleDAO ∧ overall_health sampleDAO ≤ 1) ∧
    (0 ≤ 1 - hhi sampleDAO.treasury_assets ∧ 1 - hhi sampleDAO.treasury_assets ≤ 1) ∧
    (0 ≤ calculate_treasury_risk sampleDAO.treasury_assets ∧
      calculate_treasury_risk sampleDAO.treasury_assets ≤ 1) ∧
    (0 ≤ calculate_liquidity_score sampleDAO.treasury_assets ∧
      calculate_liquidity_score sampleDAO.treasury_assets ≤ 1) :=
  score_bundle_bounds sampleDAO (by norm_num [sampleDAO]) (by norm_num [sampleDAO])
    (by intro a ha; simp [sampleDAO, scenario_portfolio] at ha
        rcases ha with h | h | h | h <;> subst h <;> norm_num)
    (by norm_num [sampleDAO, totalValue, scenario_portfolio])

theorem totalValue_scale (c : ℚ) (assets : List Asset) :
    totalValue (scaleAssets c assets) = c * totalValue assets := by
  simp [totalValue, scaleAssets, List.map_map, Function.comp_def, List.sum_map_mul_left]

theorem weighted_scale (table : String → ℚ) (c : ℚ) (hc : c ≠ 0) (assets : List Asset) :
    ((scaleAssets c assets).map
        (fun a => (a.value_usd / totalValue (scaleAssets c assets)) * table a.symbol)).sum
      = (assets.map (fun a => (a.value_usd / totalValue assets) * table a.symbol)).sum := by
  rw [totalValue_scale]
  simp only [scaleAssets, List.map_map, Function.comp_def]
  apply congrArg List.sum
  apply List.map_congr_left
  intro a _
  rw [mul_div_mul_left _ _ hc]

/-- C9: the treasury risk and liquidity scores are invariant under uniform
scaling of all holdings by a positive factor. -/
theorem treasury_scores_scale_invariant (assets : List Asset) (c : ℚ)
    (hc : 0 < c) (ht : 0 < totalValue assets) :
    calculate_treasury_risk (scaleAssets c assets) = calculate_treasury_risk assets ∧
    calculate_liquidity_score (scaleAssets c assets) = calculate_liquidity_score assets := by
  have htot := totalValue_scale c assets
  have hne : totalValue assets ≠ 0 := ht.ne'
  have hne2 : totalValue (scaleAssets c assets) ≠ 0 := by
    rw [htot]
    exact mul_ne_zero hc.ne' hne
  constructor
  · simp only [calculate_treasury_risk]
    rw [if_neg hne2, if_neg hne, weighted_scale _ c hc.ne']
  · simp only [calculate_liquidity_score]
    rw [if_neg hne2, if_neg hne, weighted_scale _ c hc.ne']

/-- C9 witness: doubling the scenario portfolio leaves both scores unchanged. -/
theorem treasury_scores_scale_invariant_witness :
    calculate_treasury_risk (scaleAssets 2 scenario_portfolio)
      = calculate_treasury_risk scenario_portfolio ∧
    calculate_liquidity_score (scaleAssets 2 scenario_portfolio)
      = calculate_liquidity_score scenario_portfolio :=
  treasury_scores_scale_invariant scenario_portfolio 2 (by norm_num)
    (by norm_num [totalValue, scenario_portfolio])

/-- C8: a treasury-rebalance request whose target-allocation percentages
sum to a value off by more than 0.01 from 1 yields a failed response with
the validation message and neither a transaction hash nor gas usage. -/
theorem rebalance_invalid_allocation (r : ActionExecutionRequest) (txh : String)
    (alloc : List (String × ℚ))
    (hat : r.action_type = .treasury_rebalance)
    (hdao : r.dao_address ≠ "")
    (hparam : lookupParam r.parameters "target_allocation" = some (.dict alloc))
    (hsum : |(alloc.map (fun p => p.2)).sum - 1| > 1/100) :
    execute_action r txh =
      ⟨.treasury_rebalance, r.dao_address, "failed", none, none,
        some "Target allocation percentages must sum to 100%"⟩ := by
  unfold execute_action validate_action_parameters
  rw [if_neg hdao, if_neg (by simp [hat]), if_neg (by simp [hparam])]
  simp only [hat, execute_treasury_rebalance, getTargetAllocation, hparam]
  rw [if_pos hsum]

/-- C8 witness: an allocation summing to 0.95 is rejected. -/
theorem rebalance_invalid_allocation_witness :
    execute_action
      ⟨.treasury_rebalance, "0xdao", none,
        [("target_allocation", .dict [("USDC", 1/2), ("ETH", 45/100)])]⟩ "0xtx" =
      ⟨.treasury_rebalance, "0xdao", "failed", none, none,
        some "Target allocation percentages must sum to 100%"⟩ :=
  rebalance_invalid_allocation _ _ [("USDC", 1/2), ("ETH", 45/100)] rfl
    (by simp) (by simp [lookupParam]) (by norm_num [abs_of_pos])

theorem exec_proposal_safe (txh : String) : SafeResult (execute_proposal txh) := by
  simp [SafeResult, execute_proposal]

theorem exec_rebalance_safe (r : ActionExecutionRequest) (txh : String) :
    SafeResult (execute_treasury_rebalance r txh) := by
  unfold execute_treasury_rebalance
  cases hg : getTargetAllocation r.parameters with
  | none => simp [SafeResult]
  | some d =>
    simp only [SafeResult]
    split_ifs <;> simp

theorem exec_transfer_safe (r : ActionExecutionRequest) (txh : String) :
    SafeResult (execute_token_transfer r txh) := by
  unfold execute_token_transfer
  split_ifs <;> simp [SafeResult]

theorem exec_contract_safe (r : ActionExecutionRequest) (txh : String) :
    SafeResult (execute_contract_interaction r txh) := by
  unfold execute_contract_interaction
  split_ifs <;> simp [SafeResult]

/-- C10: `execute_action` is total (validation failures and internal errors
become a failed response rather than an exception), a failed response
always carries an error message, and only a response with status
"executed" carries a transaction hash. -/
theorem execute_action_no_raise (r : ActionExecutionRequest) (txh : String) :
    ((execute_action r txh).status = "executed" ∨ (execute_action r txh).status = "failed") ∧
    ((execute_action r txh).status = "failed" →
      (execute_action r txh).error_message.isSome) ∧
    ((execute_action r txh).transaction_hash.isSome →
      (execute_action r txh).status = "executed") := by
  unfold execute_action
  cases hval : validate_action_parameters r with
  | error msg => simp
  | ok u =>
    cases hat : r.action_type <;> simp only []
    · exact exec_proposal_safe txh
    · exact exec_rebalance_safe r txh
    · exact exec_transfer_safe r txh
    · exact exec_contract_safe r txh

end AIDA
